import Mathlib

/-!
Verification of the AuraVis scene-scan core: the PCM-to-WAV container
encoder (`toWav` in `src/ai/flows/describe-scene.ts`), the scene-scan
orchestrator (`describeSceneFlow`), and the UI-side scan handler
(`handleRescan`) with its history-snapshot processing.

Bytes are modelled as `Nat` values below 256 in `List Nat`; multi-byte
header fields are little-endian.  External collaborators (the description
service, the speech service, the realtime database) are passed in as
explicit oracle values, and effect lists record the calls the code makes.
-/

namespace AuraVis

/-- Little-endian encoding of a 16-bit field into two bytes. -/
def toLE16 (n : Nat) : List Nat := [n % 256, n / 256 % 256]

/-- Little-endian encoding of a 32-bit field into four bytes. -/
def toLE32 (n : Nat) : List Nat :=
  [n % 256, n / 256 % 256, n / 65536 % 256, n / 16777216 % 256]

/-- Read a 16-bit little-endian value from two bytes. -/
def fromLE16 (l : List Nat) : Nat :=
  match l with
  | [a, b] => a + 256 * b
  | _ => 0

/-- Read a 32-bit little-endian value from four bytes. -/
def fromLE32 (l : List Nat) : Nat :=
  match l with
  | [a, b, c, d] => a + 256 * b + 65536 * c + 16777216 * d
  | _ => 0

/-- The sublist of `l` of length `n` starting at offset `off`. -/
def slice (l : List Nat) (off n : Nat) : List Nat := (l.drop off).take n

/-- Read the 16-bit little-endian field at byte offset `off`. -/
def readLE16 (l : List Nat) (off : Nat) : Nat := fromLE16 (slice l off 2)

/-- Read the 32-bit little-endian field at byte offset `off`. -/
def readLE32 (l : List Nat) (off : Nat) : Nat := fromLE32 (slice l off 4)

/-- ASCII bytes of the RIFF chunk tag. -/
def riffTag : List Nat := [82, 73, 70, 70]

/-- ASCII bytes of the WAVE format tag. -/
def waveTag : List Nat := [87, 65, 86, 69]

/-- ASCII bytes of the fmt subchunk tag (with trailing space). -/
def fmtTag : List Nat := [102, 109, 116, 32]

/-- ASCII bytes of the data subchunk tag. -/
def dataTag : List Nat := [100, 97, 116, 97]

/-- Audio parameters handed to the container writer, mirroring the options
object `new wav.Writer({channels, sampleRate, bitDepth})` receives in
`toWav`. -/
structure WavOpts where
  channels : Nat
  sampleRate : Nat
  bitDepth : Nat
deriving DecidableEq

/-- The 44-byte container header for a PCM payload of `dataLen` bytes:
RIFF size, WAVE/fmt tags, format tag 1 (linear PCM), channel count, sample
rate, byte rate, block alignment, bits per sample, data tag and payload
length. -/
def wavHeader (o : WavOpts) (dataLen : Nat) : List Nat :=
  riffTag ++ toLE32 (36 + dataLen) ++ waveTag ++ fmtTag ++ toLE32 16 ++
  toLE16 1 ++ toLE16 o.channels ++ toLE32 o.sampleRate ++
  toLE32 (o.sampleRate * o.channels * (o.bitDepth / 8)) ++
  toLE16 (o.channels * (o.bitDepth / 8)) ++ toLE16 o.bitDepth ++
  dataTag ++ toLE32 dataLen

/-- Modelled from the spec: the container writer used by `toWav` is the npm
`wav` package's `Writer`, whose source is not part of this repository.
Following the spec's encoder contract, it emits a fixed-size header
(format tag linear PCM, channel count, sample rate, byte rate, block
alignment, bits per sample, total payload length) followed immediately by
the PCM bytes unmodified, and fails fast with an `InvalidParameter` error
on a zero sample rate or zero channel count instead of emitting a corrupt
header. -/
def encodeWav (o : WavOpts) (pcm : List Nat) : Except String (List Nat) :=
  if o.channels = 0 ∨ o.sampleRate = 0 then
    Except.error "InvalidParameter"
  else
    Except.ok (wavHeader o pcm.length ++ pcm)

/-- The base64 alphabet in index order. -/
def base64Chars : List Char :=
  "ABCDEFGHIJKLMNOPQRSTUVWXYZabcdefghijklmnopqrstuvwxyz0123456789+/".toList

/-- The base64 digit for a 6-bit value. -/
def b64char (n : Nat) : Char := base64Chars.getD n '='

/-- Standard base64 of a byte sequence, modelling
`Buffer.toString` with the base64 encoding: three-byte groups become four
digits, with `=` padding for a final group of one or two bytes. -/
def base64Encode : List Nat → String
  | [] => ""
  | [a] =>
    String.mk [b64char (a / 4), b64char (a % 4 * 16), '=', '=']
  | [a, b] =>
    String.mk [b64char (a / 4), b64char (a % 4 * 16 + b / 16),
      b64char (b % 16 * 4), '=']
  | a :: b :: c :: rest =>
    String.mk [b64char (a / 4), b64char (a % 4 * 16 + b / 16),
      b64char (b % 16 * 4 + c / 64), b64char (c % 64)] ++ base64Encode rest

/-- Embedding of `toWav` (src/ai/flows/describe-scene.ts, lines 103-128):
runs the container writer on the PCM buffer with the given channel count,
sample rate and sample width in bytes; a writer error rejects the promise
(no output is produced), otherwise the concatenated writer output is
resolved as its base64 string.  The source's default arguments are
channels 1, rate 24000, sample width 2. -/
def toWav (pcmData : List Nat) (channels rate sampleWidth : Nat) :
    Except String String :=
  match encodeWav ⟨channels, rate, sampleWidth * 8⟩ pcmData with
  | Except.error e => Except.error e
  | Except.ok bytes => Except.ok (base64Encode bytes)

/-- Decoded view of a WAV byte buffer: the header's audio parameters and
the PCM payload the header's data-length field declares. -/
structure DecodedWav where
  channels : Nat
  sampleRate : Nat
  byteRate : Nat
  blockAlign : Nat
  bitsPerSample : Nat
  pcmBytes : List Nat
deriving DecidableEq

/-- Modelled from the spec: a standard WAV reader for the round-trip law.
It checks the RIFF/WAVE/fmt/data tags and the linear-PCM format tag, reads
the header fields, and returns the payload bytes the data-length field
declares; it rejects a buffer that is too short or whose declared length
exceeds the bytes present. -/
def decodeWav (bytes : List Nat) : Option DecodedWav :=
  if 44 ≤ bytes.length ∧ slice bytes 0 4 = riffTag ∧
     slice bytes 8 4 = waveTag ∧ slice bytes 12 4 = fmtTag ∧
     slice bytes 36 4 = dataTag ∧ readLE16 bytes 20 = 1 ∧
     readLE32 bytes 40 ≤ bytes.length - 44 then
    some { channels := readLE16 bytes 22
           sampleRate := readLE32 bytes 24
           byteRate := readLE32 bytes 28
           blockAlign := readLE16 bytes 32
           bitsPerSample := readLE16 bytes 34
           pcmBytes := (bytes.drop 44).take (readLE32 bytes 40) }
  else
    none

/-- The two voice selector values of the input schema
`z.enum(male, female)`. -/
inductive Voice where
  | male : Voice
  | female : Voice
deriving DecidableEq

/-- Embedding of the input schema's voice field
`z.enum(male, female).default(female)`: an omitted field takes the default
`female`, the two enum literals parse to their values, and any other
string is rejected. -/
def parseVoice : Option String → Option Voice
  | none => some Voice.female
  | some s =>
    if s = "male" then some Voice.male
    else if s = "female" then some Voice.female
    else none

/-- The static voice lookup of the flow: the ternary
`input.voice === male ? Achernar : Algenib`. -/
def voiceNameOf : Voice → String
  | Voice.male => "Achernar"
  | Voice.female => "Algenib"

/-- Structured output of the scene-analysis prompt: the description text
and the optional resolved location label. -/
structure SceneOutput where
  sceneDescription : String
  location : Option String
deriving DecidableEq

/-- Outcome of the `ai.generate` speech-synthesis call as the flow
observes it: the call either returns (with or without a media payload,
the payload modelled as the decoded raw PCM bytes of the returned data
URI) or raises. -/
inductive TtsResponse where
  | success (media : Option (List Nat)) : TtsResponse
  | failure : TtsResponse
deriving DecidableEq

/-- Return value of `describeSceneFlow`: description text, audio data URI
(possibly empty) and optional location label. -/
structure FlowResult where
  sceneDescription : String
  ttsAudioDataUri : String
  location : Option String
deriving DecidableEq

/-- Embedding of `describeSceneFlow` (src/ai/flows/describe-scene.ts,
lines 46-101).  The description service's structured output and the
speech service's response are oracle inputs.  The first component is the
flow's outcome: an absent output throws; otherwise the voice
selector is mapped, the speech call is made, a missing media payload or a
raised synthesis error leaves the audio URI empty (the try/catch), and a
media payload is wrapped by `toWav` with the default parameters and
prefixed.  The second component lists the speech-synthesis invocations
made, as (voice name, prompt text) pairs. -/
def describeSceneFlow (descOutput : Option SceneOutput) (tts : TtsResponse)
    (voice : Voice) : Except String FlowResult × List (String × String) :=
  match descOutput with
  | none => (Except.error "Could not generate scene description.", [])
  | some o =>
    let voiceName := if voice = Voice.male then "Achernar" else "Algenib"
    let ttsAudioDataUri :=
      match tts with
      | TtsResponse.failure => ""
      | TtsResponse.success none => ""
      | TtsResponse.success (some audioBuffer) =>
        match toWav audioBuffer 1 24000 2 with
        | Except.ok s => "data:audio/wav;base64," ++ s
        | Except.error _ => ""
    (Except.ok { sceneDescription := o.sceneDescription
                 ttsAudioDataUri := ttsAudioDataUri
                 location := o.location },
     [(voiceName, o.sceneDescription)])

/-- One history record as `handleRescan` builds it before pushing it to
the database (timestamps and ids are assigned outside the model). -/
structure HistoryWrite where
  userId : String
  description : String
  imageUrl : String
  location : Option String
deriving DecidableEq

/-- Observable effects of one `handleRescan` invocation: the description
shown when the handler finishes, the database writes attempted and those
that succeeded, the destructive toasts raised, and whether audio
generation was requested. -/
structure ScanOutcome where
  finalDescription : String
  writeAttempts : List HistoryWrite
  persistedWrites : List HistoryWrite
  toasts : List String
  audioRequested : Bool
deriving DecidableEq

/-- The description shown when the catch handler of `handleRescan`
fires. -/
def failedScanDescription : String :=
  "Could not get a description for the scene. Please try again."

/-- Embedding of `handleRescan` (AuraVisUI): a not-ready camera or a null
user aborts with a toast before any service call or write.  Otherwise the
captured frame is described; on success the description is displayed and
the history entry write is awaited inside the same try block, so a failed
write falls into the catch handler, which replaces the description with
the error placeholder and raises the Analysis Failed toast; only after a
successful write is audio generation requested.  Oracle inputs:
`describeResult` is the awaited `describeScene` outcome and `setSucceeds`
tells whether the awaited database `set` resolves. -/
def handleRescan (cameraReady : Bool) (user : Option String)
    (initialDescription photoDataUri : String)
    (describeResult : Except Unit FlowResult) (setSucceeds : Bool) :
    ScanOutcome :=
  if cameraReady = false then
    { finalDescription := initialDescription
      writeAttempts := []
      persistedWrites := []
      toasts := ["Camera is not ready"]
      audioRequested := false }
  else
    match user with
    | none =>
      { finalDescription := initialDescription
        writeAttempts := []
        persistedWrites := []
        toasts := ["Not logged in"]
        audioRequested := false }
    | some uid =>
      match describeResult with
      | Except.error _ =>
        { finalDescription := failedScanDescription
          writeAttempts := []
          persistedWrites := []
          toasts := ["Analysis Failed"]
          audioRequested := false }
      | Except.ok result =>
        let w : HistoryWrite :=
          { userId := uid
            description := result.sceneDescription
            imageUrl := photoDataUri
            location := result.location }
        if setSucceeds then
          { finalDescription := result.sceneDescription
            writeAttempts := [w]
            persistedWrites := [w]
            toasts := []
            audioRequested := true }
        else
          { finalDescription := failedScanDescription
            writeAttempts := [w]
            persistedWrites := []
            toasts := ["Analysis Failed"]
            audioRequested := false }

/-- The history query limit `MAX_HISTORY_ITEMS` of the UI. -/
def MAX_HISTORY_ITEMS : Nat := 10

/-- One stored history record as the snapshot delivers it under its key
(the timestamp is the epoch-milliseconds value its ISO string parses
to). -/
structure StoredEntry where
  description : String
  imageUrl : String
  timestamp : Nat
  location : Option String
deriving DecidableEq

/-- One entry of the UI history list, after the snapshot's key has been
merged in as `id`. -/
structure UiHistoryEntry where
  id : String
  description : String
  imageUrl : String
  timestamp : Nat
  location : Option String
deriving DecidableEq

/-- Entry `a` is at least as recent as entry `b`: the order the snapshot
comparator (descending by parsed timestamp) sorts by. -/
def moreRecent (a b : UiHistoryEntry) : Prop := b.timestamp ≤ a.timestamp

instance : DecidableRel moreRecent := fun a b =>
  inferInstanceAs (Decidable (b.timestamp ≤ a.timestamp))

instance : IsTotal UiHistoryEntry moreRecent :=
  ⟨fun a b => Nat.le_total b.timestamp a.timestamp⟩

instance : IsTrans UiHistoryEntry moreRecent :=
  ⟨fun _ _ _ hab hbc => Nat.le_trans hbc hab⟩

/-- Embedding of the history snapshot handler in `AuraVisUI`: a null
snapshot value clears the list; otherwise the keyed entries are mapped to
UI entries and sorted by the comparator on parsed timestamps, most recent
first. -/
def parseSnapshot (data : Option (List (String × StoredEntry))) :
    List UiHistoryEntry :=
  match data with
  | none => []
  | some entries =>
    List.insertionSort moreRecent
      (entries.map fun p =>
        { id := p.1
          description := p.2.description
          imageUrl := p.2.imageUrl
          timestamp := p.2.timestamp
          location := p.2.location })

/-! Helper lemmas about the byte-level primitives and the header layout. -/

theorem fromLE16_toLE16 {n : Nat} (h : n < 65536) : fromLE16 (toLE16 n) = n := by
  simp only [fromLE16, toLE16]
  omega

theorem fromLE32_toLE32 {n : Nat} (h : n < 4294967296) :
    fromLE32 (toLE32 n) = n := by
  simp only [fromLE32, toLE32]
  omega

theorem slice_eq_of_append {k n : Nat} (l P x S : List Nat)
    (hl : l = P ++ (x ++ S)) (hk : P.length = k) (hn : x.length = n) :
    slice l k n = x := by
  subst hl hk hn
  simp [slice, List.drop_left, List.take_left]

theorem wavHeader_length (o : WavOpts) (n : Nat) : (wavHeader o n).length = 44 := by
  simp [wavHeader, riffTag, waveTag, fmtTag, dataTag, toLE16, toLE32]

theorem header_slice0 (o : WavOpts) (n : Nat) (rest : List Nat) :
    slice (wavHeader o n ++ rest) 0 4 = riffTag := by
  refine slice_eq_of_append _ [] riffTag
    (toLE32 (36 + n) ++ waveTag ++ fmtTag ++ toLE32 16 ++ toLE16 1 ++
      toLE16 o.channels ++ toLE32 o.sampleRate ++
      toLE32 (o.sampleRate * o.channels * (o.bitDepth / 8)) ++
      toLE16 (o.channels * (o.bitDepth / 8)) ++ toLE16 o.bitDepth ++
      dataTag ++ toLE32 n ++ rest) ?_ rfl rfl
  simp [wavHeader, List.append_assoc]

theorem header_slice8 (o : WavOpts) (n : Nat) (rest : List Nat) :
    slice (wavHeader o n ++ rest) 8 4 = waveTag := by
  refine slice_eq_of_append _ (riffTag ++ toLE32 (36 + n)) waveTag
    (fmtTag ++ toLE32 16 ++ toLE16 1 ++
      toLE16 o.channels ++ toLE32 o.sampleRate ++
      toLE32 (o.sampleRate * o.channels * (o.bitDepth / 8)) ++
      toLE16 (o.channels * (o.bitDepth / 8)) ++ toLE16 o.bitDepth ++
      dataTag ++ toLE32 n ++ rest) ?_ ?_ rfl
  · simp [wavHeader, List.append_assoc]
  · simp [riffTag, toLE32]

theorem header_slice12 (o : WavOpts) (n : Nat) (rest : List Nat) :
    slice (wavHeader o n ++ rest) 12 4 = fmtTag := by
  refine slice_eq_of_append _ (riffTag ++ toLE32 (36 + n) ++ waveTag) fmtTag
    (toLE32 16 ++ toLE16 1 ++
      toLE16 o.channels ++ toLE32 o.sampleRate ++
      toLE32 (o.sampleRate * o.channels * (o.bitDepth / 8)) ++
      toLE16 (o.channels * (o.bitDepth / 8)) ++ toLE16 o.bitDepth ++
      dataTag ++ toLE32 n ++ rest) ?_ ?_ rfl
  · simp [wavHeader, List.append_assoc]
  · simp [riffTag, waveTag, toLE32]

theorem header_slice20 (o : WavOpts) (n : Nat) (rest : List Nat) :
    slice (wavHeader o n ++ rest) 20 2 = toLE16 1 := by
  refine slice_eq_of_append _
    (riffTag ++ toLE32 (36 + n) ++ waveTag ++ fmtTag ++ toLE32 16) (toLE16 1)
    (toLE16 o.channels ++ toLE32 o.sampleRate ++
      toLE32 (o.sampleRate * o.channels * (o.bitDepth / 8)) ++
      toLE16 (o.channels * (o.bitDepth / 8)) ++ toLE16 o.bitDepth ++
      dataTag ++ toLE32 n ++ rest) ?_ ?_ rfl
  · simp [wavHeader, List.append_assoc]
  · simp [riffTag, waveTag, fmtTag, toLE32]

theorem header_slice28 (o : WavOpts) (n : Nat) (rest : List Nat) :
    slice (wavHeader o n ++ rest) 28 4 =
      toLE32 (o.sampleRate * o.channels * (o.bitDepth / 8)) := by
  refine slice_eq_of_append _
    (riffTag ++ toLE32 (36 + n) ++ waveTag ++ fmtTag ++ toLE32 16 ++
      toLE16 1 ++ toLE16 o.channels ++ toLE32 o.sampleRate)
    (toLE32 (o.sampleRate * o.channels * (o.bitDepth / 8)))
    (toLE16 (o.channels * (o.bitDepth / 8)) ++ toLE16 o.bitDepth ++
      dataTag ++ toLE32 n ++ rest) ?_ ?_ rfl
  · simp [wavHeader, List.append_assoc]
  · simp [riffTag, waveTag, fmtTag, toLE16, toLE32]

theorem header_slice36 (o : WavOpts) (n : Nat) (rest : List Nat) :
    slice (wavHeader o n ++ rest) 36 4 = dataTag := by
  refine slice_eq_of_append _
    (riffTag ++ toLE32 (36 + n) ++ waveTag ++ fmtTag ++ toLE32 16 ++
      toLE16 1 ++ toLE16 o.channels ++ toLE32 o.sampleRate ++
      toLE32 (o.sampleRate * o.channels * (o.bitDepth / 8)) ++
      toLE16 (o.channels * (o.bitDepth / 8)) ++ toLE16 o.bitDepth) dataTag
    (toLE32 n ++ rest) ?_ ?_ rfl
  · simp [wavHeader, List.append_assoc]
  · simp [riffTag, waveTag, fmtTag, toLE16, toLE32]

theorem header_slice40 (o : WavOpts) (n : Nat) (rest : List Nat) :
    slice (wavHeader o n ++ rest) 40 4 = toLE32 n := by
  refine slice_eq_of_append _
    (riffTag ++ toLE32 (36 + n) ++ waveTag ++ fmtTag ++ toLE32 16 ++
      toLE16 1 ++ toLE16 o.channels ++ toLE32 o.sampleRate ++
      toLE32 (o.sampleRate * o.channels * (o.bitDepth / 8)) ++
      toLE16 (o.channels * (o.bitDepth / 8)) ++ toLE16 o.bitDepth ++ dataTag)
    (toLE32 n) rest ?_ ?_ rfl
  · simp [wavHeader, List.append_assoc]
  · simp [riffTag, waveTag, fmtTag, dataTag, toLE16, toLE32]

theorem header_drop44 (o : WavOpts) (n : Nat) (rest : List Nat) :
    (wavHeader o n ++ rest).drop 44 = rest := by
  rw [← wavHeader_length o n, List.drop_left]

theorem header_append_length (o : WavOpts) (n : Nat) (rest : List Nat) :
    (wavHeader o n ++ rest).length = 44 + rest.length := by
  simp [wavHeader_length]

/-! Claim theorems. -/

/-- C1: for every PCM byte buffer and valid parameters (channel count `c`,
sample rate `r`, bits per sample `b`), the encoder output's header
declares a data-length field exactly equal to the PCM length and a
byte-rate field exactly equal to `r * c * (b / 8)`, and the header (44
bytes) is followed immediately by the PCM bytes unmodified. -/
theorem encodeWav_header_fields (c r b : Nat) (pcm : List Nat)
    (hc : c ≠ 0) (hr : r ≠ 0)
    (hlen : pcm.length < 4294967296) (hbr : r * c * (b / 8) < 4294967296) :
    ∃ out, encodeWav ⟨c, r, b⟩ pcm = Except.ok out ∧
      readLE32 out 40 = pcm.length ∧
      readLE32 out 28 = r * c * (b / 8) ∧
      out.drop 44 = pcm := by
  refine ⟨wavHeader ⟨c, r, b⟩ pcm.length ++ pcm, ?_, ?_, ?_, ?_⟩
  · simp [encodeWav, hc, hr]
  · rw [readLE32, header_slice40, fromLE32_toLE32 hlen]
  · rw [readLE32, header_slice28]
    have : (WavOpts.mk c r b).sampleRate * (WavOpts.mk c r b).channels *
        ((WavOpts.mk c r b).bitDepth / 8) = r * c * (b / 8) := rfl
    rw [this, fromLE32_toLE32 hbr]
  · exact header_drop44 _ _ _

/-- C1 witness: concrete instance at one channel, 24000 Hz, 16 bits and a
two-byte payload. -/
theorem encodeWav_header_fields_witness :
    ∃ out, encodeWav ⟨1, 24000, 16⟩ [7, 8] = Except.ok out ∧
      readLE32 out 40 = List.length [7, 8] ∧
      readLE32 out 28 = 24000 * 1 * (16 / 8) ∧
      out.drop 44 = [7, 8] :=
  encodeWav_header_fields 1 24000 16 [7, 8] (by decide) (by decide)
    (by decide) (by decide)

theorem decodeWav_spec (bytes : List Nat)
    (h : 44 ≤ bytes.length ∧ slice bytes 0 4 = riffTag ∧
      slice bytes 8 4 = waveTag ∧ slice bytes 12 4 = fmtTag ∧
      slice bytes 36 4 = dataTag ∧ readLE16 bytes 20 = 1 ∧
      readLE32 bytes 40 ≤ bytes.length - 44) :
    decodeWav bytes =
      some { channels := readLE16 bytes 22
             sampleRate := readLE32 bytes 24
             byteRate := readLE32 bytes 28
             blockAlign := readLE16 bytes 32
             bitsPerSample := readLE16 bytes 34
             pcmBytes := (bytes.drop 44).take (readLE32 bytes 40) } := by
  rw [decodeWav, if_pos h]

/-- C2: for every byte sequence (including the empty one) and valid
parameters, decoding the encoder's output recovers exactly the original
PCM bytes. -/
theorem encodeWav_decodeWav_roundtrip (c r b : Nat) (pcm : List Nat)
    (hc : c ≠ 0) (hr : r ≠ 0) (hlen : pcm.length < 4294967296) :
    ∃ out d, encodeWav ⟨c, r, b⟩ pcm = Except.ok out ∧
      decodeWav out = some d ∧ d.pcmBytes = pcm := by
  have hdata : readLE32 (wavHeader ⟨c, r, b⟩ pcm.length ++ pcm) 40 = pcm.length := by
    rw [readLE32, header_slice40, fromLE32_toLE32 hlen]
  have hdrop : (wavHeader ⟨c, r, b⟩ pcm.length ++ pcm).drop 44 = pcm :=
    header_drop44 _ _ _
  have hlength : (wavHeader ⟨c, r, b⟩ pcm.length ++ pcm).length = 44 + pcm.length :=
    header_append_length _ _ _
  have hcond : 44 ≤ (wavHeader ⟨c, r, b⟩ pcm.length ++ pcm).length ∧
      slice (wavHeader ⟨c, r, b⟩ pcm.length ++ pcm) 0 4 = riffTag ∧
      slice (wavHeader ⟨c, r, b⟩ pcm.length ++ pcm) 8 4 = waveTag ∧
      slice (wavHeader ⟨c, r, b⟩ pcm.length ++ pcm) 12 4 = fmtTag ∧
      slice (wavHeader ⟨c, r, b⟩ pcm.length ++ pcm) 36 4 = dataTag ∧
      readLE16 (wavHeader ⟨c, r, b⟩ pcm.length ++ pcm) 20 = 1 ∧
      readLE32 (wavHeader ⟨c, r, b⟩ pcm.length ++ pcm) 40 ≤
        (wavHeader ⟨c, r, b⟩ pcm.length ++ pcm).length - 44 := by
    refine ⟨by omega, header_slice0 _ _ _, header_slice8 _ _ _,
      header_slice12 _ _ _, header_slice36 _ _ _, ?_, by omega⟩
    rw [readLE16, header_slice20, fromLE16_toLE16 (by omega)]
  have henc : encodeWav ⟨c, r, b⟩ pcm =
      Except.ok (wavHeader ⟨c, r, b⟩ pcm.length ++ pcm) := by
    simp [encodeWav, hc, hr]
  have hpcm : ((wavHeader ⟨c, r, b⟩ pcm.length ++ pcm).drop 44).take
      (readLE32 (wavHeader ⟨c, r, b⟩ pcm.length ++ pcm) 40) = pcm := by
    rw [hdata, hdrop, List.take_length]
  exact ⟨_, _, henc, decodeWav_spec _ hcond, hpcm⟩

/-- C2 witness: the round-trip at the empty PCM sequence with the default
parameters (the header-only file). -/
theorem encodeWav_decodeWav_roundtrip_witness :
    ∃ out d, encodeWav ⟨1, 24000, 16⟩ [] = Except.ok out ∧
      decodeWav out = some d ∧ d.pcmBytes = [] :=
  encodeWav_decodeWav_roundtrip 1 24000 16 [] (by decide) (by decide)
    (by decide)

/-- C3: for every call with a malformed parameter value (zero channel
count or zero sample rate), the encoder fails fast with the
`InvalidParameter` error and produces no output buffer. -/
theorem toWav_invalid_params (pcm : List Nat) (c r w : Nat)
    (h : c = 0 ∨ r = 0) :
    toWav pcm c r w = Except.error "InvalidParameter" ∧
    encodeWav ⟨c, r, w * 8⟩ pcm = Except.error "InvalidParameter" := by
  have henc : encodeWav ⟨c, r, w * 8⟩ pcm = Except.error "InvalidParameter" := by
    rw [encodeWav, if_pos]
    exact h
  exact ⟨by rw [toWav, henc], henc⟩

/-- C3 witness: the encoder rejects a zero channel count. -/
theorem toWav_invalid_params_witness :
    toWav [7] 0 24000 2 = Except.error "InvalidParameter" ∧
    encodeWav ⟨0, 24000, 2 * 8⟩ [7] = Except.error "InvalidParameter" :=
  toWav_invalid_params [7] 0 24000 2 (Or.inl rfl)

/-- C4: for every scan in which the description step succeeds (producing
usable text) but the speech-synthesis call raises or returns no media,
the scan still returns successfully with an empty audio data URI and a
non-empty scene description (policy A: synthesis failure is downgraded,
not propagated). -/
theorem describeSceneFlow_tts_failure_downgraded (o : SceneOutput)
    (tts : TtsResponse) (v : Voice) (hdesc : o.sceneDescription ≠ "")
    (htts : tts = TtsResponse.failure ∨ tts = TtsResponse.success none) :
    ∃ res, (describeSceneFlow (some o) tts v).1 = Except.ok res ∧
      res.ttsAudioDataUri = "" ∧ res.sceneDescription ≠ "" := by
  rcases htts with h | h <;> subst h <;> exact ⟨_, rfl, rfl, hdesc⟩

/-- C4 witness: a raised synthesis call at a concrete description still
yields a successful scan with empty audio. -/
theorem describeSceneFlow_tts_failure_downgraded_witness :
    ∃ res, (describeSceneFlow (some ⟨"A quiet street.", none⟩)
        TtsResponse.failure Voice.female).1 = Except.ok res ∧
      res.ttsAudioDataUri = "" ∧ res.sceneDescription ≠ "" :=
  describeSceneFlow_tts_failure_downgraded ⟨"A quiet street.", none⟩
    TtsResponse.failure Voice.female (by decide) (Or.inl rfl)

/-- C5 counterexample: when the description service returns an empty text
field the flow does not fail and does call speech synthesis — the scan
returns successfully with the empty description, and one synthesis call
(prompted with the empty string) is made. -/
theorem describeSceneFlow_empty_text_not_rejected :
    (describeSceneFlow (some ⟨"", none⟩) (TtsResponse.success none)
        Voice.female).1 = Except.ok ⟨"", "", none⟩ ∧
    (describeSceneFlow (some ⟨"", none⟩) (TtsResponse.success none)
        Voice.female).2 = [("Algenib", "")] :=
  ⟨rfl, rfl⟩

/-- C5 (amended): only an absent description output fails the scan with
the DescriptionUnavailable error, and then no speech-synthesis call is
made; an empty text field is not rejected. -/
theorem describeSceneFlow_absent_output_fails (tts : TtsResponse) (v : Voice) :
    describeSceneFlow none tts v =
      (Except.error "Could not generate scene description.", []) := rfl

/-- C6: the voice selector maps "male" to the fixed identifier Achernar
and "female" to the fixed identifier Algenib (two distinct identifiers),
an omitted selector defaults to "female", no other selector string is
accepted by the input schema, and every scan's single synthesis call uses
exactly this mapping. -/
theorem voice_mapping_fixed :
    parseVoice none = some Voice.female ∧
    parseVoice (some "male") = some Voice.male ∧
    parseVoice (some "female") = some Voice.female ∧
    (∀ s : String, s ≠ "male" → s ≠ "female" → parseVoice (some s) = none) ∧
    voiceNameOf Voice.male = "Achernar" ∧
    voiceNameOf Voice.female = "Algenib" ∧
    voiceNameOf Voice.male ≠ voiceNameOf Voice.female ∧
    ∀ (o : SceneOutput) (tts : TtsResponse) (v : Voice),
      (describeSceneFlow (some o) tts v).2 =
        [(voiceNameOf v, o.sceneDescription)] := by
  refine ⟨rfl, by simp [parseVoice], by simp [parseVoice], ?_, rfl, rfl,
    by decide, ?_⟩
  · intro s h1 h2
    simp [parseVoice, h1, h2]
  · intro o tts v
    cases v <;> rfl

/-- C6 witness: a selector value other than the two enum literals is
rejected. -/
theorem voice_mapping_fixed_witness : parseVoice (some "alto") = none :=
  voice_mapping_fixed.2.2.2.1 "alto" (by decide) (by decide)

/-- C7: for every scan that produces audio, the returned audio data URI
is exactly the literal prefix followed by the base64 of the encoder's
output buffer (the 44-byte header followed by the PCM payload). -/
theorem describeSceneFlow_audio_uri_format (o : SceneOutput) (v : Voice)
    (pcm : List Nat) :
    encodeWav ⟨1, 24000, 16⟩ pcm =
      Except.ok (wavHeader ⟨1, 24000, 16⟩ pcm.length ++ pcm) ∧
    (describeSceneFlow (some o) (TtsResponse.success (some pcm)) v).1 =
      Except.ok
        { sceneDescription := o.sceneDescription
          ttsAudioDataUri :=
            "data:audio/wav;base64," ++
              base64Encode (wavHeader ⟨1, 24000, 16⟩ pcm.length ++ pcm)
          location := o.location } :=
  ⟨rfl, rfl⟩

/-- C8 counterexample: with a ready camera, a logged-in user and a
successful description, a failed history write does surface — the
displayed description is not the scan's result but the error placeholder,
and the Analysis Failed toast is raised. -/
theorem handleRescan_set_failure_surfaces :
    (handleRescan true (some "u") "init" "photo"
        (Except.ok ⟨"A quiet street.", "", none⟩) false).finalDescription ≠
      "A quiet street." ∧
    (handleRescan true (some "u") "init" "photo"
        (Except.ok ⟨"A quiet street.", "", none⟩) false).toasts =
      ["Analysis Failed"] :=
  ⟨by decide, rfl⟩

/-- C8 (amended): for every scan whose description step succeeds, the
history write's outcome decides how the scan is reported — a successful
write displays the description with no failure toast and requests audio,
while a failed write surfaces like a description failure: the description
is replaced by the error placeholder, the Analysis Failed toast is
raised, and nothing is persisted. -/
theorem handleRescan_set_failure_policy (uid initDesc photo : String)
    (r : FlowResult) :
    (handleRescan true (some uid) initDesc photo (Except.ok r)
        true).finalDescription = r.sceneDescription ∧
    (handleRescan true (some uid) initDesc photo (Except.ok r)
        true).toasts = [] ∧
    (handleRescan true (some uid) initDesc photo (Except.ok r)
        true).audioRequested = true ∧
    (handleRescan true (some uid) initDesc photo (Except.ok r)
        false).finalDescription = failedScanDescription ∧
    (handleRescan true (some uid) initDesc photo (Except.ok r)
        false).toasts = ["Analysis Failed"] ∧
    (handleRescan true (some uid) initDesc photo (Except.ok r)
        false).persistedWrites = [] :=
  ⟨rfl, rfl, rfl, rfl, rfl, rfl⟩

/-- C9: for every scan invocation with a null (not-logged-in) user
identifier, no write to the persistence collaborator is attempted and
none is persisted, whatever the camera state, the description outcome or
the database's behavior. -/
theorem handleRescan_null_user_no_write (cameraReady : Bool)
    (initDesc photo : String) (dr : Except Unit FlowResult)
    (setOk : Bool) :
    (handleRescan cameraReady none initDesc photo dr setOk).writeAttempts = [] ∧
    (handleRescan cameraReady none initDesc photo dr setOk).persistedWrites = [] := by
  cases cameraReady <;> exact ⟨rfl, rfl⟩

/-- C10: for every snapshot delivered for the limited history query (at
most MAX_HISTORY_ITEMS entries), the UI history list is sorted
most-recent-first by timestamp and has at most 10 entries, and an empty
snapshot yields exactly the empty list. -/
theorem parseSnapshot_sorted_bounded (entries : List (String × StoredEntry))
    (hlen : entries.length ≤ MAX_HISTORY_ITEMS) :
    List.Sorted moreRecent (parseSnapshot (some entries)) ∧
    (parseSnapshot (some entries)).length ≤ MAX_HISTORY_ITEMS ∧
    parseSnapshot none = [] := by
  refine ⟨List.sorted_insertionSort moreRecent _, ?_, rfl⟩
  have hperm := List.perm_insertionSort moreRecent
    (entries.map fun p =>
      ({ id := p.1
         description := p.2.description
         imageUrl := p.2.imageUrl
         timestamp := p.2.timestamp
         location := p.2.location } : UiHistoryEntry))
  calc (parseSnapshot (some entries)).length
      = (entries.map _).length := hperm.length_eq
    _ = entries.length := List.length_map _ _
    _ ≤ MAX_HISTORY_ITEMS := hlen

/-- C10 witness: a concrete two-entry snapshot is sorted most-recent-first
and within the limit. -/
theorem parseSnapshot_sorted_bounded_witness :
    List.Sorted moreRecent
      (parseSnapshot (some [("a", ⟨"d1", "u1", 5, none⟩),
        ("b", ⟨"d2", "u2", 9, none⟩)])) ∧
    (parseSnapshot (some [("a", ⟨"d1", "u1", 5, none⟩),
        ("b", ⟨"d2", "u2", 9, none⟩)])).length ≤ MAX_HISTORY_ITEMS ∧
    parseSnapshot none = [] :=
  parseSnapshot_sorted_bounded
    [("a", ⟨"d1", "u1", 5, none⟩), ("b", ⟨"d2", "u2", 9, none⟩)] (by decide)

end AuraVis
